import Mathlib

/-!
# Verification of the CPF Order Entry pricing engine

Shallow embedding of `src/server/pricing.ts` (functions `parseFraction`,
`calculateStackerFrames`, `calculatePricing`) together with the default
pricing configuration from `src/server/storage.ts` (`PricingConfigStorage`).

Modelling conventions:
* JavaScript numbers are modelled as exact rationals (`ℚ`); IEEE-754 rounding
  is not modelled, nor are the non-finite values `NaN`/`Infinity` (in `ℚ`,
  division by zero yields 0 where JavaScript would yield `Infinity`).
* JavaScript truthiness is modelled explicitly at each use site
  (`null`/`undefined`, the empty string and the number 0 are falsy).
* Strings are processed as `List Char`; `String.prototype.trim` and the regex
  classes `\s`, `\d`, `\w` are modelled over ASCII (exotic Unicode whitespace
  is not modelled).
* The catalog lookups `getMoulding`/`getSupply` read an external Excel file
  (`src/server/pricing-data.ts`); they are modelled as an abstract `Catalog`
  parameter of lookup functions, matching the spec's external-interface view.
* Monetary output fields are kept as exact rationals; the display rendering
  `toFixed(2)` is not modelled.  The conditional serialization of `salesTax`
  (`salesTax > 0 ? salesTax.toFixed(2) : ""`) is modelled by an `Option ℚ`
  (`none` models the empty/omitted field).
-/

namespace CPF

/-- Input to `parseFraction`: the TypeScript type `string | number | null | undefined`
(`null` and `undefined` behave identically there, so both map to `.null`). -/
inductive NumInput where
  | str (s : String)
  | num (q : ℚ)
  | null
deriving DecidableEq

/-- Numeric value of a digit string (the regex groups are `\d+`, so this is
JavaScript's `parseInt` on a plain digit string, computed exactly). -/
def natOfDigits (ds : List Char) : ℕ :=
  ds.foldl (fun n c => 10 * n + (c.toNat - 48)) 0

/-- `String.prototype.trim`: strip leading and trailing whitespace. -/
def jsTrim (cs : List Char) : List Char :=
  ((cs.dropWhile Char.isWhitespace).reverse.dropWhile Char.isWhitespace).reverse

/-- A character of the regex class `[\s-]` (whitespace or hyphen), used by the
mixed-fraction separator. -/
def isSepChar (c : Char) : Bool := c = '-' || c.isWhitespace

/-- The regex `^(\d+)[\s-]+(\d+)\/(\d+)$` of `parseFraction` ("mixed fraction",
e.g. `"16 1/2"` or `"16-1/2"`).  Because the digit class and the separator
class are disjoint, maximal-run scanning is equivalent to the anchored regex. -/
def mixedMatch (cs : List Char) : Option (ℕ × ℕ × ℕ) :=
  let p1 := cs.span (·.isDigit)
  if p1.1.isEmpty then none else
  let p2 := p1.2.span isSepChar
  if p2.1.isEmpty then none else
  let p3 := p2.2.span (·.isDigit)
  if p3.1.isEmpty then none else
  match p3.2 with
  | '/' :: r4 =>
    let p5 := r4.span (·.isDigit)
    if p5.1.isEmpty || !p5.2.isEmpty then none
    else some (natOfDigits p1.1, natOfDigits p3.1, natOfDigits p5.1)
  | _ => none

/-- The regex `^(\d+)\/(\d+)$` of `parseFraction` ("simple fraction", e.g. `"1/2"`). -/
def fracMatch (cs : List Char) : Option (ℕ × ℕ) :=
  let p1 := cs.span (·.isDigit)
  if p1.1.isEmpty then none else
  match p1.2 with
  | '/' :: r2 =>
    let p3 := r2.span (·.isDigit)
    if p3.1.isEmpty || !p3.2.isEmpty then none
    else some (natOfDigits p1.1, natOfDigits p3.1)
  | _ => none

/-- JavaScript `parseFloat` on an already-trimmed string, restricted to decimal
literals: optional sign, digits with an optional fractional part, and an
optional well-formed exponent; any trailing garbage is ignored.  `none` models
`NaN` (no digit in the mantissa).  The `Infinity` literal is not modelled. -/
def jsParseFloat (cs : List Char) : Option ℚ :=
  let sign : ℚ × List Char :=
    match cs with
    | '-' :: rest => (-1, rest)
    | '+' :: rest => (1, rest)
    | _ => (1, cs)
  let ip := sign.2.span (·.isDigit)
  let fp : List Char × List Char :=
    match ip.2 with
    | '.' :: rest => rest.span (·.isDigit)
    | _ => ([], ip.2)
  if ip.1.isEmpty && fp.1.isEmpty then none
  else
    let mantissa : ℚ := (natOfDigits ip.1 : ℚ) + (natOfDigits fp.1 : ℚ) / 10 ^ fp.1.length
    let expon : ℤ :=
      match fp.2 with
      | c :: rest =>
        if c = 'e' || c = 'E' then
          match rest with
          | '-' :: ds =>
            let ep := ds.span (·.isDigit)
            if ep.1.isEmpty then 0 else -(natOfDigits ep.1 : ℤ)
          | '+' :: ds =>
            let ep := ds.span (·.isDigit)
            if ep.1.isEmpty then 0 else (natOfDigits ep.1 : ℤ)
          | ds =>
            let ep := ds.span (·.isDigit)
            if ep.1.isEmpty then 0 else (natOfDigits ep.1 : ℤ)
        else 0
      | [] => 0
    some (sign.1 * mantissa * (10 : ℚ) ^ expon)

/-- `parseFraction` from `src/server/pricing.ts` (lines 31-57): parses
fractions and decimals (e.g. `"16 1/2"`, `"16-1/2"`, `"16.5"`, `"1/2"`).
The initial `if (!input) return 0` covers `null`/`undefined`, the empty
string and the number 0 (returning the number 0 itself is the same value). -/
def parseFraction : NumInput → ℚ
  | .null => 0
  | .num q => q
  | .str s =>
    if s.data = [] then 0
    else
      let str := jsTrim s.data
      if str = [] then 0
      else
        match mixedMatch str with
        | some (w, n, d) => (w : ℚ) + (n : ℚ) / (d : ℚ)
        | none =>
          match fracMatch str with
          | some (n, d) => (n : ℚ) / (d : ℚ)
          | none => (jsParseFloat str).getD 0

/-! ## Catalog and configuration (`src/server/storage.ts`, `src/server/pricing-data.ts`) -/

/-- The fields of a `MouldingData` record consumed by the pricing engine. -/
structure MouldingData where
  width : ℚ
  joinCost : ℚ

/-- The field of a `SupplyData` record consumed by the pricing engine. -/
structure SupplyData where
  price : ℚ

/-- The external catalog (`getMoulding`/`getSupply` of `pricing-data.ts`,
loaded from an Excel workbook): abstract lookup functions; `none` models a
missing SKU (`undefined`). -/
structure Catalog where
  getMoulding : String → Option MouldingData
  getSupply : String → Option SupplyData

/-- A catalog in which every lookup misses. -/
def emptyCatalog : Catalog := ⟨fun _ => none, fun _ => none⟩

structure ShippingRate where
  min : ℚ
  max : ℚ
  rate : ℚ

structure AcrylicPrice where
  type : String
  pricePerSqIn : ℚ

structure BackingPrice where
  type : String
  price : ℚ

structure StackerFrame where
  sku : String
  depth : ℚ
  pricePerFt : ℚ

/-- `PricingConfig` of `storage.ts` (lines 340-351), restricted to the fields
the pricing engine reads (`topperPieces` and `passwordHash` are never consulted
by `calculatePricing` and are omitted). -/
structure PricingConfig where
  markup : ℚ
  chopOnlyJoinFt : ℚ
  shippingRates : List ShippingRate
  acrylicPrices : List AcrylicPrice
  backingPrices : List BackingPrice
  stackerFrames : List StackerFrame
  stackerAssemblyCharge : ℚ
  stackerMarkup : ℚ

/-- The default configuration built in the `PricingConfigStorage` constructor
(`storage.ts` lines 356-391). -/
def defaultConfig : PricingConfig where
  markup := 2.75
  chopOnlyJoinFt := 18
  shippingRates :=
    [ { min := 1, max := 30, rate := 9 },
      { min := 31, max := 49, rate := 19 },
      { min := 50, max := 74, rate := 29 },
      { min := 75, max := 999, rate := 250 } ]
  acrylicPrices :=
    [ { type := "Standard", pricePerSqIn := 0.009 },
      { type := "Non-Glare", pricePerSqIn := 0.018 },
      { type := "Museum Quality", pricePerSqIn := 0.027 } ]
  backingPrices :=
    [ { type := "None", price := 0 },
      { type := "White Foam", price := 2 },
      { type := "Black Foam", price := 2.5 },
      { type := "Acid Free", price := 3 } ]
  stackerFrames :=
    [ { sku := "9532", depth := 2.5, pricePerFt := 11.81 },
      { sku := "9533", depth := 1.5, pricePerFt := 8.36 } ]
  stackerAssemblyCharge := 29.17
  stackerMarkup := 2.5

/-! ## Order input (`shared/schema.ts` via `InsertOrder`) -/

/-- The fields of `InsertOrder` consumed by `calculatePricing`.  Free-text
numeric fields are `NumInput`; nullable strings are `Option String` (`none`
models `null`/`undefined`); nullable numbers are `Option ℚ`. -/
structure InsertOrder where
  cityStateZip : Option String := none
  deliveryMethod : Option String := none
  frameSku : Option String := none
  chopOnly : Bool := false
  stackerFrame : Bool := false
  shadowDepth : Option String := none
  width : NumInput := .null
  height : NumInput := .null
  matBorderAll : NumInput := .null
  matBorderLeft : NumInput := .null
  matBorderRight : NumInput := .null
  matBorderTop : NumInput := .null
  matBorderBottom : NumInput := .null
  mat1Sku : Option String := none
  mat1Reveal : NumInput := .null
  mat2Sku : Option String := none
  mat2Reveal : NumInput := .null
  mat3Sku : Option String := none
  extraMatOpenings : Option ℚ := none
  acrylicType : Option String := none
  backingType : Option String := none
  printPaper : Bool := false
  dryMount : Bool := false
  printCanvas : Bool := false
  printCanvasWrapStyle : Option String := none
  engravedPlaque : Bool := false
  leds : Bool := false
  shadowboxFitting : Bool := false
  additionalLabor : Bool := false
  quantity : Option ℚ := none
  deposit : NumInput := .null

/-- JavaScript `x || d` for a nullable number: `null`/`undefined` and 0 are falsy. -/
def jsOrNum (x : Option ℚ) (d : ℚ) : ℚ :=
  match x with
  | none => d
  | some q => if q = 0 then d else q

/-- JavaScript `x || d` for a nullable string: `null`/`undefined` and `""` are falsy. -/
def jsOrStr (x : Option String) (d : String) : String :=
  match x with
  | none => d
  | some s => if s = "" then d else s

/-- JavaScript truthiness of a nullable string. -/
def strTruthy : Option String → Bool
  | none => false
  | some s => s ≠ ""

/-- A nullable string field viewed as a `parseFraction` input. -/
def inputOfStr : Option String → NumInput
  | none => .null
  | some s => .str s

/-! ## Dimension calculations (pricing.ts lines 119-150) -/

/-- `unitedInches` (pricing.ts lines 136-140): mat-inclusive width plus
mat-inclusive height plus the two reveals. -/
def unitedInchesOf (o : InsertOrder) : ℚ :=
  (parseFraction o.width + 2 * parseFraction o.matBorderAll
      + parseFraction o.matBorderLeft + parseFraction o.matBorderRight)
    + (parseFraction o.height + 2 * parseFraction o.matBorderAll
      + parseFraction o.matBorderTop + parseFraction o.matBorderBottom)
    + parseFraction o.mat1Reveal + parseFraction o.mat2Reveal

/-- `squareInches` (pricing.ts lines 146-150). -/
def squareInchesOf (o : InsertOrder) : ℚ :=
  (parseFraction o.width + 2 * parseFraction o.matBorderAll + parseFraction o.matBorderLeft
      + parseFraction o.matBorderRight
      + (parseFraction o.mat1Reveal + parseFraction o.mat2Reveal) / 2)
    * (parseFraction o.height + 2 * parseFraction o.matBorderAll + parseFraction o.matBorderTop
      + parseFraction o.matBorderBottom
      + (parseFraction o.mat1Reveal + parseFraction o.mat2Reveal) / 2)

/-! ## Stacker frames (`calculateStackerFrames`, pricing.ts lines 59-112) -/

structure StackerLayer where
  sku : String
  depth : ℚ
  quantity : ℤ
  cost : ℚ

structure StackerResult where
  layers : List StackerLayer
  totalCost : ℚ
  assemblyCharge : ℚ

/-- Stable insertion of a stacker frame into a depth-descending list. -/
def insertByDepthDesc (x : StackerFrame) : List StackerFrame → List StackerFrame
  | [] => [x]
  | y :: ys => if y.depth < x.depth then x :: y :: ys else y :: insertByDepthDesc x ys

/-- `[...config.stackerFrames].sort((a, b) => b.depth - a.depth)` (line 84):
a stable sort, descending by depth (entries of equal depth keep catalog order). -/
def sortByDepthDesc : List StackerFrame → List StackerFrame
  | [] => []
  | x :: xs => insertByDepthDesc x (sortByDepthDesc xs)

/-- The greedy layer loop (lines 90-104): for each catalog entry, deepest
first, take `Math.floor(remainingDepth / frame.depth)` layers if positive and
subtract the covered depth; `break` once the remaining depth is ≤ 0. -/
def stackerLoop (perimeterFeet : ℚ) : ℚ → List StackerFrame → List StackerLayer
  | _, [] => []
  | remainingDepth, frame :: rest =>
    if remainingDepth ≤ 0 then []
    else
      let quantity : ℤ := ⌊remainingDepth / frame.depth⌋
      if quantity > 0 then
        { sku := frame.sku, depth := frame.depth, quantity := quantity,
          cost := perimeterFeet * frame.pricePerFt * (quantity : ℚ) } ::
          stackerLoop perimeterFeet (remainingDepth - (quantity : ℚ) * frame.depth) rest
      else
        stackerLoop perimeterFeet remainingDepth rest

/-- `calculateStackerFrames` (pricing.ts lines 59-112). -/
def calculateStackerFrames (desiredDepth width height matBorderAll matBorderLeft
    matBorderRight matBorderTop matBorderBottom : ℚ) (config : PricingConfig) :
    StackerResult :=
  if desiredDepth ≤ 0 then
    { layers := [], totalCost := 0, assemblyCharge := 0 }
  else
    let frameWidth := width + 2 * matBorderAll + matBorderLeft + matBorderRight
    let frameHeight := height + 2 * matBorderAll + matBorderTop + matBorderBottom
    let perimeterInches := 2 * (frameWidth + frameHeight)
    let perimeterFeet := perimeterInches / 12
    let layers := stackerLoop perimeterFeet desiredDepth (sortByDepthDesc config.stackerFrames)
    let frameCost := layers.foldl (fun sum layer => sum + layer.cost) 0
    { layers := layers,
      totalCost := frameCost + config.stackerAssemblyCharge,
      assemblyCharge := config.stackerAssemblyCharge }

/-! ## Word-boundary regex tests (pricing.ts lines 311, 319) -/

/-- The regex class `\w` = `[A-Za-z0-9_]`. -/
def isWordChar (c : Char) : Bool := c.isAlpha || c.isDigit || c = '_'

/-- `\b` before a word character: start of string, or a non-word predecessor. -/
def boundaryBefore : Option Char → Bool
  | none => true
  | some c => !isWordChar c

/-- `\b` after a word character: end of string, or a non-word successor. -/
def boundaryAfter : List Char → Bool
  | [] => true
  | c :: _ => !isWordChar c

/-- Case-insensitive prefix match (the regex `i` flag, ASCII case folding),
returning the remainder on success. -/
def matchCI : List Char → List Char → Option (List Char)
  | [], s => some s
  | _ :: _, [] => none
  | t :: ts, c :: cs => if t.toLower = c.toLower then matchCI ts cs else none

/-- The token matches at the current position with `\b` on both sides (every
token used starts and ends with a word character). -/
def hereMatch (tok : List Char) (prev : Option Char) (s : List Char) : Bool :=
  boundaryBefore prev &&
    match matchCI tok s with
    | some rest => boundaryAfter rest
    | none => false

def testWordTokenAux (tok : List Char) : Option Char → List Char → Bool
  | prev, [] => hereMatch tok prev []
  | prev, c :: cs => hereMatch tok prev (c :: cs) || testWordTokenAux tok (some c) cs

/-- `/\btok\b/i.test(s)`. -/
def testWordToken (tok : String) (s : String) : Bool :=
  testWordTokenAux tok.data none s.data

/-- `/\bNJ\b/i.test(cityStateZip)` (line 319). -/
def njTest (s : String) : Bool := testWordToken "NJ" s

/-- `/\b(HI|AK|PR|Hawaii|Alaska|Puerto Rico)\b/i.test(cityStateZip)` (line 311);
the alternation is equivalent to the disjunction of the individual tests. -/
def remoteTest (s : String) : Bool :=
  testWordToken "HI" s || testWordToken "AK" s || testWordToken "PR" s ||
    testWordToken "Hawaii" s || testWordToken "Alaska" s || testWordToken "Puerto Rico" s

/-! ## Frame cost (pricing.ts lines 154-188) -/

/-- Standard (non-stacker) frame cost (lines 173-187): moulding lookup guarded
by the truthiness of `frameSku`; graceful defaults `?.width || 2` and
`?.joinCost || 0`; join feet `MAX(4, ROUNDUP((unitedInches·2 + 8 + width·4)/12))`
or the chop-only override; frame cost = joinCost × joinFt. -/
def standardFrameCost (o : InsertOrder) (catalog : Catalog) (config : PricingConfig) : ℚ :=
  let mouldingData :=
    if strTruthy o.frameSku then catalog.getMoulding (o.frameSku.getD "") else none
  let mouldingWidth := jsOrNum (mouldingData.map (·.width)) 2
  let joinCost := jsOrNum (mouldingData.map (·.joinCost)) 0
  let joinFt : ℚ :=
    if o.chopOnly then config.chopOnlyJoinFt
    else max 4 ((⌈(unitedInchesOf o * 2 + 8 + mouldingWidth * 4) / 12⌉ : ℤ) : ℚ)
  joinCost * joinFt

/-- The frame-cost dispatch (lines 154-188): the stacker path runs exactly when
`order.stackerFrame && order.shadowDepth` is truthy, with the desired depth
parsed from the free-text `shadowDepth`. -/
def frameCostOf (o : InsertOrder) (catalog : Catalog) (config : PricingConfig) : ℚ :=
  if o.stackerFrame && strTruthy o.shadowDepth then
    (calculateStackerFrames (parseFraction (inputOfStr o.shadowDepth))
      (parseFraction o.width) (parseFraction o.height)
      (parseFraction o.matBorderAll) (parseFraction o.matBorderLeft)
      (parseFraction o.matBorderRight) (parseFraction o.matBorderTop)
      (parseFraction o.matBorderBottom) config).totalCost
  else standardFrameCost o catalog config

/-! ## Add-on costs (pricing.ts lines 190-286) -/

/-- `!order.frameSku || order.frameSku.trim() === "" || order.frameSku === "None"`
(line 191). -/
def isStandaloneOrder (o : InsertOrder) : Bool :=
  match o.frameSku with
  | none => true
  | some s => s = "" || jsTrim s.data = [] || s = "None"

/-- The base (pre-markup, pre-quantity) cost of each add-on component
(`...CostBase` variables of lines 196-286). -/
structure AddOnBases where
  mat1 : ℚ
  mat2 : ℚ
  mat3 : ℚ
  acrylic : ℚ
  backing : ℚ
  printPaper : ℚ
  dryMount : ℚ
  printCanvas : ℚ
  engravedPlaque : ℚ
  leds : ℚ
  shadowboxFitting : ℚ
  additionalLabor : ℚ
  extraMatOpenings : ℚ

/-- The add-on accumulation of lines 210-286, parameterized by the standalone
multiplier exactly where the source applies it (acrylic, backing, mats). -/
def addOnBases (o : InsertOrder) (catalog : Catalog) (config : PricingConfig)
    (standaloneMultiplier : ℚ) : AddOnBases :=
  let squareInches := squareInchesOf o
  let acrylicType := jsOrStr o.acrylicType "Standard"
  let backingType := jsOrStr o.backingType "White Foam"
  { acrylic :=
      if acrylicType ≠ "None" then
        jsOrNum ((config.acrylicPrices.find? (fun p => p.type = acrylicType)).map
            (·.pricePerSqIn)) 0 * squareInches * standaloneMultiplier
      else 0
    backing :=
      if backingType ≠ "None" then
        jsOrNum ((config.backingPrices.find? (fun p => p.type = backingType)).map
            (·.price)) 0 * standaloneMultiplier
      else 0
    mat1 :=
      if strTruthy o.mat1Sku then
        jsOrNum ((catalog.getSupply (o.mat1Sku.getD "")).map (·.price)) 15
          * standaloneMultiplier
      else 0
    mat2 :=
      if strTruthy o.mat2Sku then
        jsOrNum ((catalog.getSupply (o.mat2Sku.getD "")).map (·.price)) 15
          * standaloneMultiplier
      else 0
    mat3 :=
      if strTruthy o.mat3Sku then
        jsOrNum ((catalog.getSupply (o.mat3Sku.getD "")).map (·.price)) 15
          * standaloneMultiplier
      else 0
    extraMatOpenings := jsOrNum o.extraMatOpenings 0 * 2.5
    printPaper := if o.printPaper then 0.05 * squareInches else 0
    dryMount := if o.dryMount then 0.03 * squareInches else 0
    printCanvas :=
      if o.printCanvas then
        if o.printCanvasWrapStyle = some "Rolled" then 0.055 * squareInches
        else 0.08 * squareInches
      else 0
    engravedPlaque := if o.engravedPlaque then 30 else 0
    leds := if o.leds then 45 else 0
    shadowboxFitting := if o.shadowboxFitting then 17.50 else 0
    additionalLabor := if o.additionalLabor then 17.50 else 0 }

/-- Sum of the add-on components (`addOnCosts`), in the source's accumulation
order. -/
def addOnTotal (b : AddOnBases) : ℚ :=
  b.acrylic + b.backing + b.mat1 + b.mat2 + b.mat3 + b.extraMatOpenings
    + b.printPaper + b.dryMount + b.printCanvas + b.engravedPlaque + b.leds
    + b.shadowboxFitting + b.additionalLabor

/-- `const standaloneMultiplier = isStandaloneOrder ? 3.0 : 1.0` (line 193). -/
def standaloneMultiplierOf (o : InsertOrder) : ℚ :=
  if isStandaloneOrder o then 3.0 else 1.0

/-- The add-on bases as computed inside `calculatePricing`. -/
def addOnsOf (o : InsertOrder) (catalog : Catalog) (config : PricingConfig) : AddOnBases :=
  addOnBases o catalog config (standaloneMultiplierOf o)

/-! ## Totals (pricing.ts lines 288-334) -/

/-- `const quantity = order.quantity || 1` (line 121). -/
def quantityOf (o : InsertOrder) : ℚ := jsOrNum o.quantity 1

/-- `const markup = order.stackerFrame ? config.stackerMarkup : config.markup`
(line 291). -/
def markupOf (o : InsertOrder) (config : PricingConfig) : ℚ :=
  if o.stackerFrame then config.stackerMarkup else config.markup

/-- `itemTotal = (frameCost + addOnCosts) * markup * quantity` (line 292). -/
def itemTotalOf (o : InsertOrder) (catalog : Catalog) (config : PricingConfig) : ℚ :=
  (frameCostOf o catalog config + addOnTotal (addOnsOf o catalog config))
    * markupOf o config * quantityOf o

/-- The tier lookup of lines 304-307:
`config.shippingRates.filter(r => ui >= r.min && ui <= r.max).shift()`,
then `shippingRate?.rate || 9`. -/
def shippingBase (config : PricingConfig) (unitedInches : ℚ) : ℚ :=
  jsOrNum (((config.shippingRates.filter
      (fun r => unitedInches ≥ r.min && unitedInches ≤ r.max)).head?).map (·.rate)) 9

/-- Shipping (lines 294-315): 0 for pickup, flat 29 for chop-only, otherwise
the tier lookup plus a $99 remote-destination surcharge when unitedInches < 75. -/
def shippingOf (o : InsertOrder) (config : PricingConfig) : ℚ :=
  if o.deliveryMethod = some "pickup" then 0
  else if o.chopOnly then 29
  else
    let base := shippingBase config (unitedInchesOf o)
    if remoteTest (o.cityStateZip.getD "") && unitedInchesOf o < 75 then base + 99
    else base

/-- `salesTax = isTaxable ? itemTotal * 0.07 : 0` (lines 317-320). -/
def salesTaxOf (o : InsertOrder) (catalog : Catalog) (config : PricingConfig) : ℚ :=
  if njTest (o.cityStateZip.getD "") then itemTotalOf o catalog config * 0.07 else 0

/-- `total = itemTotal + shipping + salesTax` (line 323). -/
def totalOf (o : InsertOrder) (catalog : Catalog) (config : PricingConfig) : ℚ :=
  itemTotalOf o catalog config + shippingOf o config + salesTaxOf o catalog config

/-- `balance = total - deposit` with `deposit = parseFraction(order.deposit)`
(lines 326-327). -/
def balanceOf (o : InsertOrder) (catalog : Catalog) (config : PricingConfig) : ℚ :=
  totalOf o catalog config - parseFraction o.deposit

/-- The itemized component breakdown of the result (post-markup,
post-quantity, lines 335-350). -/
structure Breakdown where
  frameCost : ℚ
  mat1Cost : ℚ
  mat2Cost : ℚ
  mat3Cost : ℚ
  acrylicCost : ℚ
  backingCost : ℚ
  printPaperCost : ℚ
  dryMountCost : ℚ
  printCanvasCost : ℚ
  engravedPlaqueCost : ℚ
  ledsCost : ℚ
  shadowboxFittingCost : ℚ
  additionalLaborCost : ℚ
  extraMatOpeningsCost : ℚ

/-- `PricingResult` (lines 5-28).  Monetary values are kept exact; the
two-decimal display rendering `toFixed(2)` is not modelled.  The field
`salesTax` is `Option ℚ`: `none` models the empty serialization of
`salesTax > 0 ? salesTax.toFixed(2) : ""` (line 332). -/
structure PricingResult where
  itemTotal : ℚ
  shipping : ℚ
  salesTax : Option ℚ
  total : ℚ
  balance : ℚ
  breakdown : Breakdown

/-- `calculatePricing` (pricing.ts lines 114-352). -/
def calculatePricing (o : InsertOrder) (catalog : Catalog) (config : PricingConfig) :
    PricingResult :=
  let markup := markupOf o config
  let quantity := quantityOf o
  let b := addOnsOf o catalog config
  let salesTax := salesTaxOf o catalog config
  { itemTotal := itemTotalOf o catalog config
    shipping := shippingOf o config
    salesTax := if salesTax > 0 then some salesTax else none
    total := totalOf o catalog config
    balance := balanceOf o catalog config
    breakdown :=
      { frameCost := frameCostOf o catalog config * markup * quantity
        mat1Cost := b.mat1 * markup * quantity
        mat2Cost := b.mat2 * markup * quantity
        mat3Cost := b.mat3 * markup * quantity
        acrylicCost := b.acrylic * markup * quantity
        backingCost := b.backing * markup * quantity
        printPaperCost := b.printPaper * markup * quantity
        dryMountCost := b.dryMount * markup * quantity
        printCanvasCost := b.printCanvas * markup * quantity
        engravedPlaqueCost := b.engravedPlaque * markup * quantity
        ledsCost := b.leds * markup * quantity
        shadowboxFittingCost := b.shadowboxFitting * markup * quantity
        additionalLaborCost := b.additionalLabor * markup * quantity
        extraMatOpeningsCost := b.extraMatOpenings * markup * quantity } }

/-! ## Spec-side comparison definitions (for refinement claims) -/

/-- The shipping-rate selection as §4.5 of the spec words it: the first
shipping tier, in the configured (ascending) order, whose `[min, max]` range
contains `unitedInches`; if none matches, the lowest (first) tier's rate.
For comparison with `shippingBase` (the code's `filter(...).shift()` with the
literal fallback `|| 9`). -/
def specShippingRate (config : PricingConfig) (unitedInches : ℚ) : ℚ :=
  match config.shippingRates.find?
      (fun r => r.min ≤ unitedInches && unitedInches ≤ r.max) with
  | some r => r.rate
  | none => ((config.shippingRates.head?).map (·.rate)).getD 0

/-- The deposit parse as §4.7 of the spec words it: "currency-tolerant parse
of free-text deposit field (strip non-numeric, default 0)" — keep only digits
and decimal points, then decimal-parse.  For comparison only: the code parses
the deposit with `parseFraction`, which strips nothing. -/
def currencyTolerantParse (s : String) : ℚ :=
  (jsParseFloat (s.data.filter (fun ch => ch.isDigit || ch = '.'))).getD 0

/-! ## Shared helper lemmas -/

/-- The default stacker catalog is already sorted descending by depth. -/
lemma sortByDepthDesc_defaultConfig :
    sortByDepthDesc defaultConfig.stackerFrames = defaultConfig.stackerFrames := by
  norm_num [sortByDepthDesc, insertByDepthDesc, defaultConfig]

/-- A non-positive desired depth short-circuits `calculateStackerFrames` to an
all-zero result (pricing.ts lines 71-73). -/
lemma calculateStackerFrames_nonpos (d w h a l r t b : ℚ) (cfg : PricingConfig)
    (hd : d ≤ 0) : calculateStackerFrames d w h a l r t b cfg = ⟨[], 0, 0⟩ := by
  simp [calculateStackerFrames, hd]

/-- The code's tier lookup agrees with the spec-side selection on the default
configuration (including the fallback: the literal 9 equals the default lowest
tier's rate). -/
lemma shippingBase_eq_spec (ui : ℚ) :
    shippingBase defaultConfig ui = specShippingRate defaultConfig ui := by
  simp only [shippingBase, specShippingRate, defaultConfig, List.filter, List.find?,
    jsOrNum, ge_iff_le]
  cases h1 : (decide ((1 : ℚ) ≤ ui) && decide (ui ≤ 30)) <;>
  cases h2 : (decide ((31 : ℚ) ≤ ui) && decide (ui ≤ 49)) <;>
  cases h3 : (decide ((50 : ℚ) ≤ ui) && decide (ui ≤ 74)) <;>
  cases h4 : (decide ((75 : ℚ) ≤ ui) && decide (ui ≤ 999)) <;>
  simp [h1, h2, h3, h4]

/-- `"abc"` falls through every pattern of the parser. -/
lemma parse_abc_aux : parseFraction (.str "abc") = 0 := by
  norm_num +decide [parseFraction,
    show jsTrim "abc".data = "abc".data from by decide,
    show mixedMatch "abc".data = none from by decide,
    show fracMatch "abc".data = none from by decide,
    show jsParseFloat "abc".data = none from by decide]

/-! ## Claim C1: quantity = 0 -/

/-- Claim C1 is false on the code: `const quantity = order.quantity || 1`
(line 121) coerces a quantity of 0 to 1, so an order with quantity 0 and the
default backing ("White Foam", standalone ×3) has itemTotal
(0 + 2·3) · 2.75 · 1 = 16.5, not 0. -/
theorem C1_counterexample :
    (calculatePricing { quantity := some 0 } emptyCatalog defaultConfig).itemTotal = 33/2
    ∧ (33/2 : ℚ) ≠ 0 := by
  constructor
  · norm_num +decide [calculatePricing, itemTotalOf, frameCostOf, standardFrameCost, addOnsOf,
      addOnBases, addOnTotal, standaloneMultiplierOf, isStandaloneOrder, quantityOf, markupOf,
      jsOrNum, jsOrStr, strTruthy, squareInchesOf, unitedInchesOf, parseFraction, defaultConfig,
      List.find?, emptyCatalog]
  · norm_num

/-- Claim C1 as amended: a quantity of 0 is coerced to 1 by the `|| 1`
default, so the whole pricing result for a quantity-0 order is the result for
the same order with quantity 1 (in particular itemTotal is not 0 in general). -/
theorem C1_amended (o : InsertOrder) (c : Catalog) (cfg : PricingConfig)
    (h : o.quantity = some 0) :
    calculatePricing o c cfg = calculatePricing { o with quantity := some 1 } c cfg := by
  cases o
  simp only [InsertOrder.mk.injEq] at h ⊢
  subst h
  simp only [calculatePricing, itemTotalOf, balanceOf, totalOf, salesTaxOf, shippingOf,
    shippingBase, quantityOf, markupOf, frameCostOf, standardFrameCost, addOnsOf, addOnBases,
    addOnTotal, standaloneMultiplierOf, isStandaloneOrder, unitedInchesOf, squareInchesOf,
    jsOrNum, jsOrStr, strTruthy]
  norm_num

/-- Witness for C1_amended at a concrete quantity-0 order. -/
theorem C1_amended_witness :
    calculatePricing { quantity := some 0 } emptyCatalog defaultConfig
      = calculatePricing { quantity := some 1 } emptyCatalog defaultConfig :=
  C1_amended { quantity := some 0 } emptyCatalog defaultConfig rfl

/-! ## Claim C3: deposit parsing -/

/-- Claim C3 is false on the code: the deposit is parsed with `parseFraction`
(line 326), which is not currency-tolerant — `parseFloat("$100")` is `NaN`, so
a deposit of `"$100"` contributes 0, not 100.  At the concrete order below
total = balance = 25.5, whereas the claim predicts balance = total − 100. -/
theorem C3_counterexample :
    (calculatePricing { deposit := .str "$100" } emptyCatalog defaultConfig).balance
      = (calculatePricing { deposit := .str "$100" } emptyCatalog defaultConfig).total
    ∧ (calculatePricing { deposit := .str "$100" } emptyCatalog defaultConfig).balance
      ≠ (calculatePricing { deposit := .str "$100" } emptyCatalog defaultConfig).total
          - 100 := by
  have hb : (calculatePricing { deposit := .str "$100" } emptyCatalog
      defaultConfig).balance = 51/2 := by
    norm_num +decide [calculatePricing, balanceOf, totalOf, itemTotalOf, salesTaxOf,
      shippingOf, shippingBase, njTest, remoteTest, testWordToken, testWordTokenAux, hereMatch,
      frameCostOf, standardFrameCost, addOnsOf, addOnBases, addOnTotal, standaloneMultiplierOf,
      isStandaloneOrder, quantityOf, markupOf, jsOrNum, jsOrStr, strTruthy, squareInchesOf,
      unitedInchesOf, parseFraction, defaultConfig, List.find?, List.filter, emptyCatalog,
      show jsTrim "$100".data = "$100".data from by decide,
      show mixedMatch "$100".data = none from by decide,
      show fracMatch "$100".data = none from by decide,
      show jsParseFloat "$100".data = none from by decide]
  have ht : (calculatePricing { deposit := .str "$100" } emptyCatalog
      defaultConfig).total = 51/2 := by
    norm_num +decide [calculatePricing, balanceOf, totalOf, itemTotalOf, salesTaxOf,
      shippingOf, shippingBase, njTest, remoteTest, testWordToken, testWordTokenAux, hereMatch,
      frameCostOf, standardFrameCost, addOnsOf, addOnBases, addOnTotal, standaloneMultiplierOf,
      isStandaloneOrder, quantityOf, markupOf, jsOrNum, jsOrStr, strTruthy, squareInchesOf,
      unitedInchesOf, parseFraction, defaultConfig, List.find?, List.filter, emptyCatalog,
      show jsTrim "$100".data = "$100".data from by decide,
      show mixedMatch "$100".data = none from by decide,
      show fracMatch "$100".data = none from by decide,
      show jsParseFloat "$100".data = none from by decide]
  rw [hb, ht]
  norm_num

/-- Claim C3 as amended: the deposit is parsed by the same fraction/decimal
parser used for measurements (not a currency-tolerant stripping parse: the
spec-side `currencyTolerantParse` gives 100 on `"$100"` where the code's
`parseFraction` gives 0), and balance = total − that deposit. -/
theorem C3_amended :
    (∀ (o : InsertOrder) (c : Catalog) (cfg : PricingConfig),
      (calculatePricing o c cfg).balance
        = (calculatePricing o c cfg).total - parseFraction o.deposit)
    ∧ parseFraction (.str "$100") = 0
    ∧ currencyTolerantParse "$100" = 100 := by
  refine ⟨fun o c cfg => by simp [calculatePricing, balanceOf], ?_, ?_⟩
  · norm_num +decide [parseFraction,
      show jsTrim "$100".data = "$100".data from by decide,
      show mixedMatch "$100".data = none from by decide,
      show fracMatch "$100".data = none from by decide,
      show jsParseFloat "$100".data = none from by decide]
  · norm_num +decide [currencyTolerantParse,
      show List.filter (fun ch => ch.isDigit || ch = '.') "$100".data = ['1', '0', '0']
        from by decide,
      jsParseFloat, show natOfDigits ['1', '0', '0'] = 100 from by decide]

/-- Witness for C3_amended at the `"$100"`-deposit order. -/
theorem C3_amended_witness :
    (calculatePricing { deposit := .str "$100" } emptyCatalog defaultConfig).balance
      = (calculatePricing { deposit := .str "$100" } emptyCatalog defaultConfig).total
        - parseFraction (.str "$100") :=
  C3_amended.1 { deposit := .str "$100" } emptyCatalog defaultConfig

/-! ## Claim C4: nonnegativity of derived dimensions -/

/-- Claim C4 is false on the code: free-text dimensions may parse to negative
numbers (the decimal fallback accepts a sign), e.g. width `"-100"` and height
`"1"` give unitedInches = −99 and squareInches = −100. -/
theorem C4_counterexample :
    unitedInchesOf { width := .str "-100", height := .str "1" } < 0
    ∧ squareInchesOf { width := .str "-100", height := .str "1" } < 0 := by
  constructor <;>
  norm_num +decide [unitedInchesOf, squareInchesOf, parseFraction,
    show jsTrim "-100".data = "-100".data from by decide,
    show jsTrim "1".data = "1".data from by decide,
    show mixedMatch "-100".data = none from by decide,
    show fracMatch "-100".data = none from by decide,
    show mixedMatch "1".data = none from by decide,
    show fracMatch "1".data = none from by decide,
    show jsParseFloat "-100".data = some (-100) from by
      norm_num +decide [jsParseFloat, show natOfDigits ['1', '0', '0'] = 100 from by decide],
    show jsParseFloat "1".data = some 1 from by
      norm_num +decide [jsParseFloat, show natOfDigits ['1'] = 1 from by decide]]

/-- Claim C4 as amended: when every parsed measurement (width, height, the
five borders, the two reveals) is nonnegative, unitedInches and squareInches
are nonnegative. -/
theorem C4_amended (o : InsertOrder)
    (hw : 0 ≤ parseFraction o.width) (hh : 0 ≤ parseFraction o.height)
    (ha : 0 ≤ parseFraction o.matBorderAll) (hl : 0 ≤ parseFraction o.matBorderLeft)
    (hr : 0 ≤ parseFraction o.matBorderRight) (ht : 0 ≤ parseFraction o.matBorderTop)
    (hb : 0 ≤ parseFraction o.matBorderBottom) (h1 : 0 ≤ parseFraction o.mat1Reveal)
    (h2 : 0 ≤ parseFraction o.mat2Reveal) :
    0 ≤ unitedInchesOf o ∧ 0 ≤ squareInchesOf o := by
  unfold unitedInchesOf squareInchesOf
  exact ⟨by linarith, mul_nonneg (by linarith) (by linarith)⟩

/-- Witness for C4_amended at the all-empty order (every parse is 0). -/
theorem C4_amended_witness : 0 ≤ unitedInchesOf {} ∧ 0 ≤ squareInchesOf {} :=
  C4_amended {} (by norm_num [parseFraction]) (by norm_num [parseFraction])
    (by norm_num [parseFraction]) (by norm_num [parseFraction])
    (by norm_num [parseFraction]) (by norm_num [parseFraction])
    (by norm_num [parseFraction]) (by norm_num [parseFraction])
    (by norm_num [parseFraction])

/-! ## Claim C5: negative extraMatOpenings -/

/-- Claim C5 is false on the code: `(order.extraMatOpenings || 0) * 2.5`
(line 247) passes a negative count straight through (a negative number is
truthy), so extraMatOpenings = −2 contributes base −5, i.e. breakdown cost
−5 · 2.75 · 1 = −13.75 < 0. -/
theorem C5_counterexample :
    (calculatePricing { extraMatOpenings := some (-2) } emptyCatalog
        defaultConfig).breakdown.extraMatOpeningsCost = -55/4
    ∧ (-55/4 : ℚ) < 0 := by
  constructor
  · norm_num +decide [calculatePricing, addOnsOf, addOnBases, standaloneMultiplierOf,
      isStandaloneOrder, quantityOf, markupOf, jsOrNum, jsOrStr, strTruthy, squareInchesOf,
      parseFraction, defaultConfig, List.find?, emptyCatalog]
  · norm_num

/-- Claim C5 as amended: a negative extraMatOpenings count is not clamped; it
contributes count × 2.50 — a negative base cost — to the accumulated total. -/
theorem C5_amended (o : InsertOrder) (c : Catalog) (cfg : PricingConfig) (k : ℚ)
    (hk : o.extraMatOpenings = some k) (hneg : k < 0) :
    (calculatePricing o c cfg).breakdown.extraMatOpeningsCost
      = k * 2.5 * markupOf o cfg * quantityOf o
    ∧ k * 2.5 < 0 := by
  constructor
  · simp [calculatePricing, addOnsOf, addOnBases, jsOrNum, hk, hneg.ne]
    try ring
  · nlinarith

/-- Witness for C5_amended at extraMatOpenings = −2. -/
theorem C5_amended_witness :
    (calculatePricing { extraMatOpenings := some (-2) } emptyCatalog
        defaultConfig).breakdown.extraMatOpeningsCost
      = (-2 : ℚ) * 2.5 * markupOf { extraMatOpenings := some (-2) } defaultConfig
          * quantityOf { extraMatOpenings := some (-2) }
    ∧ (-2 : ℚ) * 2.5 < 0 :=
  C5_amended { extraMatOpenings := some (-2) } emptyCatalog defaultConfig (-2) rfl
    (by norm_num)

/-! ## Claim C2: shipping tiers -/

/-- Claim C2: on the default configuration the tiers are disjoint and
ascending (so first-in-list-order = first-in-ascending-order), the code's tier
lookup equals the spec-side selection for every unitedInches value — including
the fallback, since the hardcoded `|| 9` equals the default lowest tier's rate
— and for every non-pickup, non-chop-only order the shipping output is that
selection plus the remote-destination surcharge. -/
theorem C2_shipping_tiers :
    List.Chain' (fun a b => a.max < b.min) defaultConfig.shippingRates
    ∧ (∀ ui : ℚ, shippingBase defaultConfig ui = specShippingRate defaultConfig ui)
    ∧ ∀ (o : InsertOrder) (c : Catalog),
        o.deliveryMethod ≠ some "pickup" → o.chopOnly = false →
        (calculatePricing o c defaultConfig).shipping
          = specShippingRate defaultConfig (unitedInchesOf o)
            + (if remoteTest (o.cityStateZip.getD "") ∧ unitedInchesOf o < 75 then 99
              else 0) := by
  refine ⟨by norm_num [defaultConfig], shippingBase_eq_spec, ?_⟩
  intro o c hp hchop
  simp only [calculatePricing, shippingOf, if_neg hp, hchop, Bool.false_eq_true, if_false]
  by_cases hrem : remoteTest (o.cityStateZip.getD "") ∧ unitedInchesOf o < 75
  · rw [if_pos (by simpa using hrem), if_pos hrem, shippingBase_eq_spec]
  · rw [if_neg (by simpa using hrem), if_neg hrem, shippingBase_eq_spec]
    ring

/-- The spec's shipping fixture: a 20×20 frame (united inches 40) shipped to
Honolulu. -/
def honoluluOrder : InsertOrder :=
  { width := .num 20
    height := .num 20
    cityStateZip := some "Honolulu, HI 96815" }

/-- Witness for C2 at the spec's shipping fixture. -/
theorem C2_witness :
    (calculatePricing honoluluOrder emptyCatalog defaultConfig).shipping
      = specShippingRate defaultConfig (unitedInchesOf honoluluOrder)
        + (if remoteTest (honoluluOrder.cityStateZip.getD "")
            ∧ unitedInchesOf honoluluOrder < 75 then 99 else 0) :=
  C2_shipping_tiers.2.2 honoluluOrder emptyCatalog (by simp [honoluluOrder]) rfl

/-! ## Claim C6: sales tax -/

/-- Claim C6: salesTax is itemTotal × 0.07 exactly when the destination
matches `/\bNJ\b/i`, and otherwise it is 0 and the output field is omitted
(modelled as `none`, the empty serialization); total always includes the
numeric salesTax. -/
theorem C6_sales_tax (o : InsertOrder) (c : Catalog) (cfg : PricingConfig) :
    (njTest (o.cityStateZip.getD "") = true →
      salesTaxOf o c cfg = itemTotalOf o c cfg * 0.07)
    ∧ (njTest (o.cityStateZip.getD "") = false →
      salesTaxOf o c cfg = 0 ∧ (calculatePricing o c cfg).salesTax = none)
    ∧ (calculatePricing o c cfg).total
        = itemTotalOf o c cfg + shippingOf o cfg + salesTaxOf o c cfg := by
  refine ⟨fun h => by simp [salesTaxOf, h], fun h => ?_, by simp [calculatePricing, totalOf]⟩
  have hs : salesTaxOf o c cfg = 0 := by simp [salesTaxOf, h]
  exact ⟨hs, by simp [calculatePricing, hs]⟩

/-- Witness for C6 at a New Jersey destination. -/
theorem C6_witness :
    salesTaxOf { cityStateZip := some "Somerset, NJ 08873" } emptyCatalog defaultConfig
      = itemTotalOf { cityStateZip := some "Somerset, NJ 08873" } emptyCatalog
          defaultConfig * 0.07 :=
  (C6_sales_tax { cityStateZip := some "Somerset, NJ 08873" } emptyCatalog
    defaultConfig).1 (by decide)

/-! ## Claim C7: the measurement parser -/

/-- Claim C7: the parser (total by construction in this model) satisfies the
five documented golden values, sends blank input to 0, evaluates mixed
fractions `"W N/D"`/`"W-N/D"` to W + N/D, simple fractions `"N/D"` to N/D,
and anything matching neither pattern nor the decimal fallback to 0. -/
theorem C7_parseFraction_spec :
    parseFraction (.str "16 1/2") = 16.5
    ∧ parseFraction (.str "2-1/2") = 2.5
    ∧ parseFraction (.str "3/4") = 0.75
    ∧ parseFraction (.str "") = 0
    ∧ parseFraction (.str "abc") = 0
    ∧ (∀ s : String, jsTrim s.data = [] → parseFraction (.str s) = 0)
    ∧ (∀ (s : String) (w n d : ℕ), mixedMatch (jsTrim s.data) = some (w, n, d) →
        parseFraction (.str s) = (w : ℚ) + (n : ℚ) / (d : ℚ))
    ∧ (∀ (s : String) (n d : ℕ), mixedMatch (jsTrim s.data) = none →
        fracMatch (jsTrim s.data) = some (n, d) →
        parseFraction (.str s) = (n : ℚ) / (d : ℚ))
    ∧ (∀ s : String, mixedMatch (jsTrim s.data) = none →
        fracMatch (jsTrim s.data) = none → jsParseFloat (jsTrim s.data) = none →
        parseFraction (.str s) = 0) := by
  refine ⟨?_, ?_, ?_, ?_, parse_abc_aux, ?_, ?_, ?_, ?_⟩
  · norm_num +decide [parseFraction,
      show jsTrim "16 1/2".data = "16 1/2".data from by decide,
      show mixedMatch "16 1/2".data = some (16, 1, 2) from by decide]
  · norm_num +decide [parseFraction,
      show jsTrim "2-1/2".data = "2-1/2".data from by decide,
      show mixedMatch "2-1/2".data = some (2, 1, 2) from by decide]
  · norm_num +decide [parseFraction,
      show jsTrim "3/4".data = "3/4".data from by decide,
      show mixedMatch "3/4".data = none from by decide,
      show fracMatch "3/4".data = some (3, 4) from by decide]
  · norm_num +decide [parseFraction]
  · intro s h
    simp only [parseFraction, h]
    simp
  · intro s w n d h
    have hne : jsTrim s.data ≠ [] := by
      intro he
      rw [he] at h
      rw [show mixedMatch [] = none from by decide] at h
      exact Option.noConfusion h
    have hsne : ¬ s.data = [] := fun he => hne (by rw [he]; decide)
    simp only [parseFraction, if_neg hsne, if_neg hne, h]
  · intro s n d h1 h2
    have hne : jsTrim s.data ≠ [] := by
      intro he
      rw [he] at h2
      rw [show fracMatch [] = none from by decide] at h2
      exact Option.noConfusion h2
    have hsne : ¬ s.data = [] := fun he => hne (by rw [he]; decide)
    simp only [parseFraction, if_neg hsne, if_neg hne, h1, h2]
  · intro s h1 h2 h3
    by_cases hsne : s.data = []
    · simp only [parseFraction, hsne]
      simp
    by_cases hne : jsTrim s.data = []
    · simp only [parseFraction, if_neg hsne, hne]
      simp
    simp only [parseFraction, if_neg hsne, if_neg hne, h1, h2, h3, Option.getD_none]

/-- Witness for C7 at the blank string (the sixth conjunct, applied at `" "`). -/
theorem C7_witness : parseFraction (.str " ") = 0 :=
  C7_parseFraction_spec.2.2.2.2.2.1 " " (by decide)

/-! ## Claim C8: stacker depth decomposition -/

/-- Claim C8: the default stacker catalog is consumed in descending depth
order, and for desiredDepth = 4 it yields exactly one 2.5-inch layer
(floor(4/2.5) = 1, remaining 1.5) and one 1.5-inch layer (floor(1.5/1.5) = 1,
remaining 0), with total cost perimeterFeet × (11.81 + 8.36) plus the
assembly charge — for every frame geometry. -/
theorem C8_stacker_decomposition (w h a l r t b : ℚ) :
    sortByDepthDesc defaultConfig.stackerFrames = defaultConfig.stackerFrames
    ∧ ((calculateStackerFrames 4 w h a l r t b defaultConfig).layers.map
        (fun L => (L.sku, L.depth, L.quantity))) = [("9532", 2.5, 1), ("9533", 1.5, 1)]
    ∧ (calculateStackerFrames 4 w h a l r t b defaultConfig).totalCost
        = 2 * ((w + 2 * a + l + r) + (h + 2 * a + t + b)) / 12 * (11.81 + 8.36)
          + defaultConfig.stackerAssemblyCharge := by
  refine ⟨sortByDepthDesc_defaultConfig, ?_, ?_⟩
  · simp only [calculateStackerFrames, sortByDepthDesc_defaultConfig]
    norm_num [defaultConfig, stackerLoop, Int.floor_eq_iff]
  · simp only [calculateStackerFrames, sortByDepthDesc_defaultConfig]
    norm_num [defaultConfig, stackerLoop, Int.floor_eq_iff]
    ring

/-- Witness for C8 at the zero geometry (zero perimeter, so the frame cost is
the assembly charge alone). -/
theorem C8_witness :
    sortByDepthDesc defaultConfig.stackerFrames = defaultConfig.stackerFrames
    ∧ ((calculateStackerFrames 4 0 0 0 0 0 0 0 defaultConfig).layers.map
        (fun L => (L.sku, L.depth, L.quantity))) = [("9532", 2.5, 1), ("9533", 1.5, 1)]
    ∧ (calculateStackerFrames 4 0 0 0 0 0 0 0 defaultConfig).totalCost
        = 2 * ((0 + 2 * 0 + 0 + 0) + (0 + 2 * 0 + 0 + 0)) / 12 * (11.81 + 8.36)
          + defaultConfig.stackerAssemblyCharge :=
  C8_stacker_decomposition 0 0 0 0 0 0 0

/-! ## Claim C9: the standalone multiplier -/

/-- Claim C9: for a standalone order (no frame) each of the mat 1/2/3,
acrylic, and backing breakdown costs is exactly 3 × its multiplier-free base,
while the frame cost, extra mat openings, print options, and the four fixed
fees are the multiplier-free bases unchanged. -/
theorem C9_standalone_multiplier (o : InsertOrder) (c : Catalog) (cfg : PricingConfig)
    (h : isStandaloneOrder o = true) :
    (calculatePricing o c cfg).breakdown.mat1Cost
      = 3 * (addOnBases o c cfg 1).mat1 * (markupOf o cfg * quantityOf o)
    ∧ (calculatePricing o c cfg).breakdown.mat2Cost
      = 3 * (addOnBases o c cfg 1).mat2 * (markupOf o cfg * quantityOf o)
    ∧ (calculatePricing o c cfg).breakdown.mat3Cost
      = 3 * (addOnBases o c cfg 1).mat3 * (markupOf o cfg * quantityOf o)
    ∧ (calculatePricing o c cfg).breakdown.acrylicCost
      = 3 * (addOnBases o c cfg 1).acrylic * (markupOf o cfg * quantityOf o)
    ∧ (calculatePricing o c cfg).breakdown.backingCost
      = 3 * (addOnBases o c cfg 1).backing * (markupOf o cfg * quantityOf o)
    ∧ (calculatePricing o c cfg).breakdown.frameCost
      = frameCostOf o c cfg * (markupOf o cfg * quantityOf o)
    ∧ (calculatePricing o c cfg).breakdown.extraMatOpeningsCost
      = (addOnBases o c cfg 1).extraMatOpenings * (markupOf o cfg * quantityOf o)
    ∧ (calculatePricing o c cfg).breakdown.printPaperCost
      = (addOnBases o c cfg 1).printPaper * (markupOf o cfg * quantityOf o)
    ∧ (calculatePricing o c cfg).breakdown.dryMountCost
      = (addOnBases o c cfg 1).dryMount * (markupOf o cfg * quantityOf o)
    ∧ (calculatePricing o c cfg).breakdown.printCanvasCost
      = (addOnBases o c cfg 1).printCanvas * (markupOf o cfg * quantityOf o)
    ∧ (calculatePricing o c cfg).breakdown.engravedPlaqueCost
      = (addOnBases o c cfg 1).engravedPlaque * (markupOf o cfg * quantityOf o)
    ∧ (calculatePricing o c cfg).breakdown.ledsCost
      = (addOnBases o c cfg 1).leds * (markupOf o cfg * quantityOf o)
    ∧ (calculatePricing o c cfg).breakdown.shadowboxFittingCost
      = (addOnBases o c cfg 1).shadowboxFitting * (markupOf o cfg * quantityOf o)
    ∧ (calculatePricing o c cfg).breakdown.additionalLaborCost
      = (addOnBases o c cfg 1).additionalLabor * (markupOf o cfg * quantityOf o) := by
  refine ⟨?_, ?_, ?_, ?_, ?_, ?_, ?_, ?_, ?_, ?_, ?_, ?_, ?_, ?_⟩ <;>
  · simp only [calculatePricing, addOnsOf, standaloneMultiplierOf, h, if_true, addOnBases]
    first
    | (split_ifs <;> ring)
    | ring

/-- Witness for C9 at a concrete standalone order carrying one mat. -/
theorem C9_witness :
    (calculatePricing { mat1Sku := some "M101" } emptyCatalog defaultConfig).breakdown.mat1Cost
      = 3 * (addOnBases { mat1Sku := some "M101" } emptyCatalog defaultConfig 1).mat1
          * (markupOf { mat1Sku := some "M101" } defaultConfig
            * quantityOf { mat1Sku := some "M101" }) :=
  (C9_standalone_multiplier { mat1Sku := some "M101" } emptyCatalog defaultConfig
    (by decide)).1

/-! ## Claim C10: assembly charge and non-positive depth -/

/-- Claim C10: a non-positive parsed depth short-circuits to an all-zero
stacker result (so frameCost is 0 with no assembly charge), while any positive
desired depth pays the assembly charge on top of the layer costs — even when
the greedy loop fits zero layers, e.g. desired depth 1 against the default
catalog (minimum depth 1.5) still costs 29.17. -/
theorem C10_assembly_charge :
    (∀ (d w h a l r t b : ℚ) (cfg : PricingConfig), d ≤ 0 →
      calculateStackerFrames d w h a l r t b cfg = ⟨[], 0, 0⟩)
    ∧ (∀ (d w h a l r t b : ℚ) (cfg : PricingConfig), 0 < d →
      (calculateStackerFrames d w h a l r t b cfg).totalCost
          = ((calculateStackerFrames d w h a l r t b cfg).layers.foldl
              (fun s L => s + L.cost) 0) + cfg.stackerAssemblyCharge
        ∧ (calculateStackerFrames d w h a l r t b cfg).assemblyCharge
          = cfg.stackerAssemblyCharge)
    ∧ (∀ w h a l r t b : ℚ,
      calculateStackerFrames 1 w h a l r t b defaultConfig = ⟨[], 29.17, 29.17⟩)
    ∧ ∀ (o : InsertOrder) (c : Catalog) (cfg : PricingConfig),
        o.stackerFrame = true → strTruthy o.shadowDepth = true →
        parseFraction (inputOfStr o.shadowDepth) ≤ 0 →
        frameCostOf o c cfg = 0
        ∧ (calculatePricing o c cfg).breakdown.frameCost = 0 := by
  refine ⟨calculateStackerFrames_nonpos, ?_, ?_, ?_⟩
  · intro d w h a l r t b cfg hd
    constructor <;> simp [calculateStackerFrames, not_le.mpr hd]
  · intro w h a l r t b
    simp only [calculateStackerFrames, sortByDepthDesc_defaultConfig]
    norm_num [defaultConfig, stackerLoop, Int.floor_eq_iff]
  · intro o c cfg h1 h2 h3
    have hfc : frameCostOf o c cfg = 0 := by
      simp only [frameCostOf, h1, h2, Bool.and_self, if_true]
      rw [calculateStackerFrames_nonpos _ _ _ _ _ _ _ _ _ h3]
    exact ⟨hfc, by simp [calculatePricing, hfc]⟩

/-- A stacker order whose free-text depth is non-numeric. -/
def stackerAbcOrder : InsertOrder := { stackerFrame := true, shadowDepth := some "abc" }

/-- Witness for C10 at the non-numeric-depth stacker order (parsed depth 0). -/
theorem C10_witness :
    frameCostOf stackerAbcOrder emptyCatalog defaultConfig = 0
    ∧ (calculatePricing stackerAbcOrder emptyCatalog
        defaultConfig).breakdown.frameCost = 0 :=
  C10_assembly_charge.2.2.2 stackerAbcOrder emptyCatalog defaultConfig rfl (by decide)
    (by norm_num [stackerAbcOrder, inputOfStr, parse_abc_aux])

end CPF
